import Mathlib

/-!
Verification of the backend of the AI Legal Document Explainer
(`src/backend/main.py`) against its natural-language specification.

The Python handlers are embedded shallowly as pure Lean functions.
External capabilities that the backend merely orchestrates are passed in
as oracle parameters:

* the PDF parsing library (`PyPDF2`) becomes a `PdfParse` value describing
  how the byte stream parses (invalid, or a list of per-page extraction
  outcomes);
* the generative-AI client becomes a function from the prompt string to a
  `GenOutcome` (the call raises, or yields a reply text);
* the standard-library JSON decoder (`json.loads`) becomes a function from
  the cleaned reply to a `LoadResult` (decode error, a well-typed object,
  or a value on which field access or model validation raises);
* wall-clock timestamps and the Python `hash` builtin become string and
  `String → Nat` parameters.

Raising an `HTTPException` in Python is modelled as returning
`Except.error`; returning normally is `Except.ok`.  Python `str` values
are modelled through their code-point lists (`String.data`), with small
`py`-prefixed helpers mirroring the Python string methods the backend
uses (`strip`, `startswith`, `endswith`, slicing, `lower`).
-/

/-- Whitespace characters removed by Python `str.strip()` (restricted to
the ASCII whitespace actually occurring in this development). -/
def isSpaceChar (c : Char) : Bool := (c = ' ') || (c = '\t') || (c = '\n') || (c = '\r')

/-- Python `str.strip()` on a code-point list. -/
def pyStripList (l : List Char) : List Char :=
  ((l.dropWhile isSpaceChar).reverse.dropWhile isSpaceChar).reverse

/-- Python `str.strip()`. -/
def pyStrip (s : String) : String := ⟨pyStripList s.data⟩

/-- Python `s.startswith(p)`. -/
def pyStartsWith (s p : String) : Bool := p.data.isPrefixOf s.data

/-- Python `s.endswith(p)`. -/
def pyEndsWith (s p : String) : Bool := p.data.isSuffixOf s.data

/-- Python slicing `s[n:]`. -/
def pySliceFrom (s : String) (n : Nat) : String := ⟨s.data.drop n⟩

/-- Python slicing `s[:-n]` (only used where `n ≤ len(s)` is guaranteed). -/
def pySliceUpToNeg (s : String) (n : Nat) : String := ⟨s.data.take (s.data.length - n)⟩

/-- Python slicing `s[:n]`. -/
def pyTake (s : String) (n : Nat) : String := ⟨s.data.take n⟩

/-- Python `s.lower()` (ASCII case folding suffices for this backend). -/
def pyLower (s : String) : String := ⟨s.data.map Char.toLower⟩

/-- Python truthiness of an `Optional[str]` value: `None` and `""` are falsy. -/
def pyTruthy : Option String → Bool
  | none => false
  | some s => !(s.data.isEmpty)

/-- Coercion of an `Optional[str]` to the string used after a truthiness check. -/
def pyStr (o : Option String) : String := o.getD ""

/-- Model of `fastapi.HTTPException`: a status code plus a human-readable detail. -/
structure HTTPException where
  status_code : Nat
  detail : String
deriving DecidableEq, Repr

deriving instance DecidableEq for Except

/-- Model of the `DocumentAnalysis` pydantic model: Python `Dict[str, str]`
values become association lists of string pairs. -/
structure DocumentAnalysis where
  summary : String
  key_clauses : List (List (String × String))
  obligations : List (List (String × String))
  risks : List (List (String × String))
  unusual_terms : List (List (String × String))
deriving DecidableEq, Repr

/-- Model of the `ChatResponse` pydantic model. -/
structure ChatResponse where
  response : String
  timestamp : String
deriving DecidableEq, Repr

/-- Model of the `ChatMessage` request body. -/
structure ChatMessage where
  message : String
  document_id : Option String := none
  document_text : Option String := none
deriving DecidableEq, Repr

/-- Outcome of one call to the external generation capability
(`model.generate_content` followed by reading `response.text`):
either some exception is raised, or a reply text is produced. -/
inductive GenOutcome where
  | raise (msg : String)
  | reply (text : String)
deriving DecidableEq, Repr

/-- Shape of a well-typed parsed JSON object as consumed by the success
path of the analyzer: each of the five expected keys is present or absent
(`analysis_data.get(key, default)`). -/
structure ParsedDict where
  summary : Option String := none
  key_clauses : Option (List (List (String × String))) := none
  obligations : Option (List (List (String × String))) := none
  risks : Option (List (List (String × String))) := none
  unusual_terms : Option (List (List (String × String))) := none
deriving Repr

/-- Outcome of `json.loads` on the cleaned reply text, as the analyzer
observes it: `decodeError` models `json.JSONDecodeError`; `ok` models a
well-typed object; `illTyped` models a parsed value on which the
subsequent field access or pydantic validation raises (that exception is
caught by the outer handler of the analyzer). -/
inductive LoadResult where
  | decodeError
  | ok (pd : ParsedDict)
  | illTyped (msg : String)

/-- Fence cleanup performed on the trimmed model reply before the JSON
parse (`main.py` lines 152-163), exactly as the source writes it: strip,
drop 7 characters when the json-tagged fence leads, drop 3 more when a
bare fence still leads, drop the last 3 when a fence trails, strip
again.  Note the two leading-fence tests are sequential `if` statements,
not an `if`/`elif`. -/
def cleanResponse (raw : String) : String :=
  let response_text := pyStrip raw
  let response_text :=
    if pyStartsWith response_text "```json" then pySliceFrom response_text 7 else response_text
  let response_text :=
    if pyStartsWith response_text "```" then pySliceFrom response_text 3 else response_text
  let response_text :=
    if pyEndsWith response_text "```" then pySliceUpToNeg response_text 3 else response_text
  pyStrip response_text

/-- Truncation applied to document text before it is embedded in a prompt
(`text[:25000] if len(text) > 25000 else text`, `main.py` lines 121 and 336). -/
def limitText (text : String) : String :=
  if text.length > 25000 then pyTake text 25000 else text

/-- Literal part of the analysis prompt before the interpolated document text. -/
def analyzePromptPre : String :=
  "\n        You are a legal document analyzer. Analyze this document and respond with ONLY valid JSON in the exact format specified.\n\n        Document Text:\n        "

/-- Literal part of the analysis prompt after the interpolated document text. -/
def analyzePromptSuf : String :=
  "\n\n        Respond with valid JSON only (no markdown, no explanations):\n        \x7b\n            \"summary\": \"Brief explanation of the document\x27s purpose and main points\",\n            \"key_clauses\": [\n                \x7b\"clause\": \"Clause name\", \"explanation\": \"Simple explanation\", \"location\": \"Section reference\"\x7d\n            ],\n            \"obligations\": [\n                \x7b\"party\": \"Who\", \"obligation\": \"What they must do\", \"consequence\": \"Result of non-compliance\"\x7d\n            ],\n            \"risks\": [\n                \x7b\"type\": \"Financial\", \"description\": \"Risk description\", \"severity\": \"High\"\x7d\n            ],\n            \"unusual_terms\": [\n                \x7b\"term\": \"Term name\", \"explanation\": \"Why unusual\", \"recommendation\": \"What to do\"\x7d\n            ]\n        \x7d\n        "

/-- Analysis prompt exactly as built by `analyze_document_with_gemini`
(`main.py` lines 120-146): the fixed template around the truncated text. -/
def buildAnalyzePrompt (text : String) : String :=
  let limited_text := limitText text
  analyzePromptPre ++ limited_text ++ analyzePromptSuf

/-- Fallback `DocumentAnalysis` returned when the reply is not valid JSON
(`main.py` lines 181-187). -/
def parseFallbackAnalysis : DocumentAnalysis where
  summary := "The document has been processed. The AI analysis is available through the chat feature."
  key_clauses := [[("clause", "Document Processed"), ("explanation", "Use the chat feature to ask about specific clauses"), ("location", "Throughout document")]]
  obligations := [[("party", "Document parties"), ("obligation", "Refer to original document"), ("consequence", "Use chat for specific details")]]
  risks := [[("type", "General"), ("description", "Use chat to identify specific risks"), ("severity", "Medium")]]
  unusual_terms := [[("term", "Various"), ("explanation", "Chat with AI to identify unusual terms"), ("recommendation", "Review document carefully")]]

/-- Fallback `DocumentAnalysis` returned when the external call (or any
other step inside the outer `try`) raises (`main.py` lines 194-200). -/
def infraFallbackAnalysis : DocumentAnalysis where
  summary := "Document uploaded successfully. AI analysis encountered an issue, but you can still chat about the document."
  key_clauses := [[("clause", "Upload Successful"), ("explanation", "Document processed, use chat for analysis"), ("location", "N/A")]]
  obligations := [[("party", "User"), ("obligation", "Use chat feature for detailed analysis"), ("consequence", "Limited automated analysis")]]
  risks := [[("type", "Technical"), ("description", "AI analysis partially unavailable"), ("severity", "Low")]]
  unusual_terms := [[("term", "Processing"), ("explanation", "Use chat feature for detailed term analysis"), ("recommendation", "Ask specific questions")]]

/-- Detail string of the 500 raised by the analyzer when no API key is configured. -/
def geminiKeyMissingDetail : String :=
  "Gemini API key not configured. Please set GEMINI_API_KEY in your environment variables."

/-- Shallow embedding of `analyze_document_with_gemini` (`main.py` lines
108-200).  `apiKeyConfigured` is the truthiness of the `GEMINI_API_KEY`
environment value; `gen` maps the prompt to the outcome of the external
call; `loads` models `json.loads` on the cleaned reply.  `Except.error`
models a raised `HTTPException`. -/
def analyze_document_with_gemini (apiKeyConfigured : Bool)
    (gen : String → GenOutcome) (loads : String → LoadResult)
    (text : String) : Except HTTPException DocumentAnalysis :=
  if !apiKeyConfigured then
    .error ⟨500, geminiKeyMissingDetail⟩
  else
    match gen (buildAnalyzePrompt text) with
    | .raise _ => .ok infraFallbackAnalysis
    | .reply raw =>
      let response_text := cleanResponse raw
      match loads response_text with
      | .decodeError => .ok parseFallbackAnalysis
      | .illTyped _ => .ok infraFallbackAnalysis
      | .ok analysis_data =>
        .ok
          { summary := analysis_data.summary.getD "Document analysis completed."
            key_clauses := analysis_data.key_clauses.getD []
            obligations := analysis_data.obligations.getD []
            risks := analysis_data.risks.getD []
            unusual_terms := analysis_data.unusual_terms.getD [] }

/-- Parsing outcome of the uploaded byte stream under the external PDF
library: either the `PdfReader` constructor raises (invalid PDF), or the
document has a list of pages, each of which yields its text or raises in
`page.extract_text()`. -/
inductive PdfParse where
  | invalid (msg : String)
  | pages (ps : List (Except String String))

/-- Page-concatenation loop of `extract_text_from_pdf` (`main.py` lines
85-93): each successfully extracted page text is appended followed by a
newline; a page whose extraction raises is skipped. -/
def concatPages (ps : List (Except String String)) : String :=
  ps.foldl
    (fun text p =>
      match p with
      | .ok page_text => text ++ page_text ++ "\n"
      | .error _ => text)
    ""

/-- Message of the exception raised when the concatenated text is empty. -/
def noTextDetail : String :=
  "No text could be extracted from the PDF. The file might be image-based or corrupted."

/-- Shallow embedding of `extract_text_from_pdf` (`main.py` lines 76-106).
Every exception inside the body — an invalid PDF or the explicit
empty-text raise — is converted by the handler into an `HTTPException`
with status 400 and a detail embedding the original message. -/
def extract_text_from_pdf (pdf : PdfParse) : Except HTTPException String :=
  match pdf with
  | .invalid msg => .error ⟨400, "Error extracting text from PDF: " ++ msg⟩
  | .pages ps =>
    let text := concatPages ps
    if (pyStrip text).length = 0 then
      .error ⟨400, "Error extracting text from PDF: " ++ noTextDetail⟩
    else
      .ok (pyStrip text)

/-- Model of one entry of `document_store` (`main.py` lines 247-252). -/
structure StoredDocument where
  text : String
  filename : String
  upload_time : String
  file_size : Nat
deriving DecidableEq, Repr

/-- Model of the process-wide `document_store` dictionary as an
association list from document id to record. -/
abbrev DocumentStore := List (String × StoredDocument)

/-- Dictionary lookup (`store[k]` / `k in store`). -/
def storeLookup (s : DocumentStore) (k : String) : Option StoredDocument :=
  (List.find? (fun p => p.1 = k) s).map (fun p => p.2)

/-- Dictionary deletion (`del store[k]`). -/
def storeErase (s : DocumentStore) (k : String) : DocumentStore :=
  List.filter (fun p => !(p.1 = k)) s

/-- Dictionary update (`store[k] = v`): the new binding shadows any
previous binding of the same key (entry order is not observed by any
modelled endpoint). -/
def storeInsert (s : DocumentStore) (k : String) (v : StoredDocument) : DocumentStore :=
  (k, v) :: storeErase s k

/-- Emptiness test (`if not document_store`). -/
def storeIsEmpty (s : DocumentStore) : Bool :=
  match s with
  | [] => true
  | _ :: _ => false

/-- Document id generation (`main.py` line 243): `"doc_"` plus the
second-resolution timestamp plus `abs(hash(text[:1000])) % 10000`.  The
Python `hash` builtin is abstracted as `textHash`. -/
def makeDocId (textHash : String → Nat) (nowStamp : String) (document_text : String) : String :=
  "doc_" ++ nowStamp ++ "_" ++ toString (textHash (pyTake document_text 1000) % 10000)

/-- Successful response body of `upload_document` (`main.py` lines 260-265). -/
structure UploadResult where
  document_id : String
  filename : String
  analysis : DocumentAnalysis
  text_length : Nat
deriving DecidableEq, Repr

/-- Detail string of the insufficient-text 400. -/
def insufficientTextDetail : String :=
  "Document appears to contain insufficient text. Please ensure the PDF contains readable text (not just images)."

/-- Detail string of the generic unexpected-failure 500 of the upload handler. -/
def unexpectedErrorDetail (msg : String) : String :=
  "An unexpected error occurred while processing your document. Please try again. Error: " ++ msg

/-- Shallow embedding of the `upload_document` handler (`main.py` lines
202-285).  Parameters beyond the request itself: `apiKeyConfigured`,
`gen`, `loads` are forwarded to the analyzer; `pdf` is the parsing
outcome of the uploaded bytes; `textHash`, `nowStamp`, `nowIso` abstract
the `hash` builtin and the two timestamp formats; `unexpected` models a
non-`HTTPException` exception raised after the document has been stored
(while analyzing or building the response) — the generic `except
Exception` handler deletes the just-stored entry and reports a 500, while
a raised `HTTPException` is re-raised unchanged by `except HTTPException`
without touching the store.  The result pairs the response (`Except.error`
for a raised `HTTPException`) with the document store after the request. -/
def upload_document (apiKeyConfigured : Bool)
    (gen : String → GenOutcome) (loads : String → LoadResult)
    (filename : Option String) (contentSize : Nat) (pdf : PdfParse)
    (textHash : String → Nat) (nowStamp nowIso : String)
    (unexpected : Option String)
    (store : DocumentStore) : Except HTTPException UploadResult × DocumentStore :=
  if !(pyTruthy filename) then
    (.error ⟨400, "No file selected"⟩, store)
  else if !(pyEndsWith (pyLower (pyStr filename)) ".pdf") then
    (.error ⟨400, "Only PDF files are supported"⟩, store)
  else if contentSize = 0 then
    (.error ⟨400, "The uploaded file is empty"⟩, store)
  else if contentSize > 10 * 1024 * 1024 then
    (.error ⟨400, "File size must be less than 10MB"⟩, store)
  else
    match extract_text_from_pdf pdf with
    | .error e => (.error e, store)
    | .ok document_text =>
      if (pyStrip document_text).length < 50 then
        (.error ⟨400, insufficientTextDetail⟩, store)
      else
        let doc_id := makeDocId textHash nowStamp document_text
        let store1 := storeInsert store doc_id
          { text := document_text
            filename := pyStr filename
            upload_time := nowIso
            file_size := contentSize }
        match unexpected with
        | some msg =>
          (.error ⟨500, unexpectedErrorDetail msg⟩, storeErase store1 doc_id)
        | none =>
          match analyze_document_with_gemini apiKeyConfigured gen loads document_text with
          | .error e => (.error e, store1)
          | .ok analysis =>
            (.ok
              { document_id := doc_id
                filename := pyStr filename
                analysis := analysis
                text_length := document_text.length }, store1)

/-- Response body of `get_document_info` (`main.py` lines 364-370). -/
structure DocumentInfo where
  document_id : String
  filename : String
  upload_time : String
  text_length : Nat
  text_preview : String
deriving DecidableEq, Repr

/-- Shallow embedding of the `get_document_info` handler (`main.py` lines
357-370). -/
def get_document_info (store : DocumentStore) (document_id : String) :
    Except HTTPException DocumentInfo :=
  match storeLookup store document_id with
  | none => .error ⟨404, "Document not found"⟩
  | some doc_info =>
    .ok
      { document_id := document_id
        filename := doc_info.filename
        upload_time := doc_info.upload_time
        text_length := doc_info.text.length
        text_preview :=
          if doc_info.text.length > 200 then pyTake doc_info.text 200 ++ "..."
          else doc_info.text }

/-- Fixed chat reply used when a `document_id` is supplied but the store is empty. -/
def storeUnavailableReply : String :=
  "The document storage system is not available. Please try uploading your document again."

/-- Fixed chat reply used when the supplied `document_id` is not a key of the store. -/
def docNotFoundReply : String :=
  "I couldn\x27t find the document you\x27re referring to. Please try uploading your document again."

/-- Fixed chat reply used when neither a `document_id` nor a `document_text` is supplied. -/
def noDocumentReply : String :=
  "Please upload a document first before asking questions."

/-- Chat prompt exactly as built by `chat_with_document` (`main.py` lines
334-340): fixed template around the truncated document text and the
question. -/
def buildChatPrompt (document_text message : String) : String :=
  "You are analyzing a legal document. Answer the following question about it:\n\nDocument: "
    ++ limitText document_text
    ++ "\n\nQuestion: " ++ message
    ++ "\n\nPlease provide a clear and concise answer based on the document content."

/-- Shallow embedding of the `chat_with_document` handler (`main.py`
lines 287-355).  `gen` maps the chat prompt to the outcome of the
external call; any exception inside the `try` is converted into a normal
`ChatResponse` embedding the error text. -/
def chat_with_document (apiKeyConfigured : Bool)
    (gen : String → GenOutcome) (nowIso : String)
    (store : DocumentStore) (chat_request : ChatMessage) :
    Except HTTPException ChatResponse :=
  if !apiKeyConfigured then
    .error ⟨500, "Gemini API key not configured"⟩
  else
    let answer : String → Except HTTPException ChatResponse := fun document_text =>
      match gen (buildChatPrompt document_text chat_request.message) with
      | .reply t => .ok ⟨pyStrip t, nowIso⟩
      | .raise msg =>
        .ok ⟨"I encountered an error while processing your question. Please try again. Error: " ++ msg, nowIso⟩
    if pyTruthy chat_request.document_id then
      if storeIsEmpty store then
        .ok ⟨storeUnavailableReply, nowIso⟩
      else
        match storeLookup store (pyStr chat_request.document_id) with
        | none => .ok ⟨docNotFoundReply, nowIso⟩
        | some doc_data => answer doc_data.text
    else if pyTruthy chat_request.document_text then
      answer (pyStr chat_request.document_text)
    else
      .ok ⟨noDocumentReply, nowIso⟩

/-- Test used to state that a handler outcome is a raised `HTTPException`
with status 400. -/
def raises400 {α : Type} (r : Except HTTPException α) : Bool :=
  match r with
  | .error e => e.status_code == 400
  | .ok _ => false

/-- Page concatenation as the specification sentence reads: keep the
texts of the pages whose extraction succeeded, in page order, and append
each text followed by a newline separator. -/
def specJoinPages (ps : List (Except String String)) : String :=
  (ps.filterMap Except.toOption).foldl (fun acc t => acc ++ t ++ "\n") ""

/-- Fence normalization as the claim wording reads: remove a leading
"```json" prefix, OTHERWISE a leading "```" prefix, then a trailing
"```" suffix, then trim.  Written from the claim wording (note the
exclusive `else if`), to be compared against `cleanResponse` taken from
the source. -/
def specCleanExclusive (raw : String) : String :=
  let t := pyStrip raw
  let t :=
    if pyStartsWith t "```json" then pySliceFrom t 7
    else if pyStartsWith t "```" then pySliceFrom t 3
    else t
  let t := if pyEndsWith t "```" then pySliceUpToNeg t 3 else t
  pyStrip t

/-- Backtick character, kept out of character-literal position. -/
def backtickChar : Char := Char.ofNat 96

/-- Code-point sequence of a bare triple-backtick fence. -/
def fenceChars : List Char := [backtickChar, backtickChar, backtickChar]

/-- Code-point sequence of a triple-backtick fence with the json language tag. -/
def fenceJsonChars : List Char := fenceChars ++ ['j', 's', 'o', 'n']

/-- Removal of a leading "```json", described by direct list surgery. -/
def specStripJsonTag (l : List Char) : List Char :=
  if l.take 7 = fenceJsonChars then l.drop 7 else l

/-- Removal of a leading "```", described by direct list surgery. -/
def specStripLeadFence (l : List Char) : List Char :=
  if l.take 3 = fenceChars then l.drop 3 else l

/-- Removal of a trailing "```", described by direct list surgery on the
reversed list. -/
def specStripTrailFence (l : List Char) : List Char :=
  if l.reverse.take 3 = fenceChars then (l.reverse.drop 3).reverse else l

/-- Fence normalization as amended: trim, remove a leading "```json",
THEN a leading "```" from what remains, then a trailing "```", then trim
again.  Stated through the independent list-surgery operations above so
that agreement with `cleanResponse` is a genuine refinement fact. -/
def specCleanSequential (raw : String) : String :=
  pyStrip ⟨specStripTrailFence (specStripLeadFence (specStripJsonTag (pyStrip raw).data))⟩

/-- Sample document text used by concrete witnesses: longer than the
50-character minimum, shorter than the 200-character preview cutoff, and
free of leading or trailing whitespace. -/
def sampleText : String :=
  "This agreement is made between the first party and the second party for legal review."

/-- Sample parse outcome: a one-page PDF whose page yields `sampleText`,
followed by a page whose extraction raises. -/
def samplePdf : PdfParse :=
  .pages [.ok sampleText, .error "page decode failure"]

/-- Sample stored record used by concrete witnesses. -/
def sampleDoc : StoredDocument :=
  { text := sampleText
    filename := "contract.pdf"
    upload_time := "2024-01-01T00:00:00"
    file_size := 1234 }

theorem pyTake_of_le (s : String) (n : Nat) (h : s.length ≤ n) : pyTake s n = s := by
  cases s with
  | mk data =>
    simp only [pyTake, String.length] at *
    congr 1
    exact List.take_of_length_le h

theorem limitText_eq_take (t : String) : limitText t = pyTake t 25000 := by
  unfold limitText
  split
  · rfl
  · exact (pyTake_of_le t 25000 (by omega)).symm

theorem storeLookup_insert_self (s : DocumentStore) (k : String) (v : StoredDocument) :
    storeLookup (storeInsert s k v) k = some v := by
  simp [storeLookup, storeInsert, List.find?_cons]

theorem storeLookup_erase_self (s : DocumentStore) (k : String) :
    storeLookup (storeErase s k) k = none := by
  simp only [storeLookup, storeErase, Option.map_eq_none', List.find?_eq_none]
  intro x hx
  simp only [List.mem_filter] at hx
  simpa using hx.2

theorem concatPages_eq_spec_aux (ps : List (Except String String)) (a : String) :
    ps.foldl
      (fun text p =>
        match p with
        | .ok page_text => text ++ page_text ++ "\n"
        | .error _ => text) a
      = (ps.filterMap Except.toOption).foldl (fun acc t => acc ++ t ++ "\n") a := by
  induction ps generalizing a with
  | nil => rfl
  | cons p ps ih => cases p <;> simp [List.filterMap_cons, Except.toOption, ih]

theorem concatPages_eq_spec (ps : List (Except String String)) :
    concatPages ps = specJoinPages ps :=
  concatPages_eq_spec_aux ps ""

theorem pyStartsWith_fence_of_json (s : String)
    (h : pyStartsWith s "```" = false) : pyStartsWith s "```json" = false := by
  simp only [pyStartsWith, Bool.eq_false_iff, ne_eq, List.isPrefixOf_iff_prefix] at h ⊢
  intro hc
  exact h (List.IsPrefix.trans (by decide) hc)

theorem pyStripList_eq_rdrop (l : List Char) :
    pyStripList l = List.rdropWhile isSpaceChar (List.dropWhile isSpaceChar l) := by
  simp [pyStripList, List.rdropWhile]

theorem dropWhile_rdropWhile_of_self {p : Char → Bool} {l : List Char}
    (h : List.dropWhile p l = l) :
    List.dropWhile p (List.rdropWhile p l) = List.rdropWhile p l := by
  rw [List.dropWhile_eq_self_iff] at h ⊢
  intro hl
  have hpre := List.rdropWhile_prefix p l
  have hl2 : 0 < l.length := lt_of_lt_of_le hl hpre.length_le
  have hg : (List.rdropWhile p l).get ⟨0, hl⟩ = l.get ⟨0, hl2⟩ := by
    simpa [List.get_eq_getElem] using hpre.getElem (n := 0) hl
  rw [hg]
  exact h hl2

theorem pyStrip_idem (s : String) : pyStrip (pyStrip s) = pyStrip s := by
  cases s with
  | mk l =>
    show String.mk (pyStripList (pyStripList l)) = String.mk (pyStripList l)
    congr 1
    rw [pyStripList_eq_rdrop l, pyStripList_eq_rdrop]
    rw [dropWhile_rdropWhile_of_self (List.dropWhile_idempotent _ _),
      List.rdropWhile_idempotent]

theorem pyStartsWith_fenceJson_iff (s : String) :
    pyStartsWith s "```json" = true ↔ s.data.take 7 = fenceJsonChars := by
  rw [pyStartsWith, List.isPrefixOf_iff_prefix, List.prefix_iff_eq_take]
  rw [show ("```json" : String).data = fenceJsonChars from by decide]
  rw [show fenceJsonChars.length = 7 from by decide]
  exact eq_comm

theorem pyStartsWith_fence_iff (s : String) :
    pyStartsWith s "```" = true ↔ s.data.take 3 = fenceChars := by
  rw [pyStartsWith, List.isPrefixOf_iff_prefix, List.prefix_iff_eq_take]
  rw [show ("```" : String).data = fenceChars from by decide]
  rw [show fenceChars.length = 3 from by decide]
  exact eq_comm

theorem pyEndsWith_fence_iff (s : String) :
    pyEndsWith s "```" = true ↔ s.data.reverse.take 3 = fenceChars := by
  rw [pyEndsWith, List.isSuffixOf, List.isPrefixOf_iff_prefix, List.prefix_iff_eq_take]
  rw [show ("```" : String).data.reverse = fenceChars from by decide]
  rw [show fenceChars.length = 3 from by decide]
  exact eq_comm

theorem revdrop_eq_take (l : List Char) (n : Nat) :
    (l.reverse.drop n).reverse = l.take (l.length - n) := by
  rw [List.drop_reverse, List.reverse_reverse]

theorem fence_step1_eq (t : String) :
    (if pyStartsWith t "```json" then pySliceFrom t 7 else t) = ⟨specStripJsonTag t.data⟩ := by
  unfold specStripJsonTag
  by_cases h : pyStartsWith t "```json" = true
  · rw [if_pos h, if_pos ((pyStartsWith_fenceJson_iff t).mp h)]
    rfl
  · rw [if_neg h, if_neg (fun hc => h ((pyStartsWith_fenceJson_iff t).mpr hc))]

theorem fence_step2_eq (t : String) :
    (if pyStartsWith t "```" then pySliceFrom t 3 else t) = ⟨specStripLeadFence t.data⟩ := by
  unfold specStripLeadFence
  by_cases h : pyStartsWith t "```" = true
  · rw [if_pos h, if_pos ((pyStartsWith_fence_iff t).mp h)]
    rfl
  · rw [if_neg h, if_neg (fun hc => h ((pyStartsWith_fence_iff t).mpr hc))]

theorem fence_step3_eq (t : String) :
    (if pyEndsWith t "```" then pySliceUpToNeg t 3 else t) = ⟨specStripTrailFence t.data⟩ := by
  unfold specStripTrailFence
  by_cases h : pyEndsWith t "```" = true
  · rw [if_pos h, if_pos ((pyEndsWith_fence_iff t).mp h)]
    show pySliceUpToNeg t 3 = String.mk ((t.data.reverse.drop 3).reverse)
    rw [revdrop_eq_take]
    rfl
  · rw [if_neg h, if_neg (fun hc => h ((pyEndsWith_fence_iff t).mpr hc))]


/-- Claim C1: the analyzer has a two-tier fallback.  For every input text
(given a configured API key, without which no external call is made): if
the external generation call raises, the analyzer returns the fixed
infra-failure record; if the call succeeds but its reply is not valid
JSON after fence-stripping, it returns the distinct fixed parse-failure
record; and the two canned records are unequal. -/
theorem claim_C1_two_tier_fallback (gen : String → GenOutcome)
    (loads : String → LoadResult) (text : String) :
    (∀ msg, gen (buildAnalyzePrompt text) = GenOutcome.raise msg →
      analyze_document_with_gemini true gen loads text = .ok infraFallbackAnalysis)
    ∧ (∀ raw, gen (buildAnalyzePrompt text) = GenOutcome.reply raw →
        loads (cleanResponse raw) = LoadResult.decodeError →
        analyze_document_with_gemini true gen loads text = .ok parseFallbackAnalysis)
    ∧ infraFallbackAnalysis ≠ parseFallbackAnalysis := by
  refine ⟨?_, ?_, ?_⟩
  · intro msg h
    simp [analyze_document_with_gemini, h]
  · intro raw h1 h2
    simp [analyze_document_with_gemini, h1, h2]
  · decide

/-- Claim C1 witness: a raising call yields the infra-failure record and
an invalid-JSON reply yields the parse-failure record, at concrete inputs. -/
theorem claim_C1_witness :
    analyze_document_with_gemini true (fun _ => GenOutcome.raise "quota exceeded")
        (fun _ => LoadResult.decodeError) "some document"
      = .ok infraFallbackAnalysis
    ∧ analyze_document_with_gemini true (fun _ => GenOutcome.reply "this is not json")
        (fun _ => LoadResult.decodeError) "some document"
      = .ok parseFallbackAnalysis :=
  ⟨(claim_C1_two_tier_fallback (fun _ => GenOutcome.raise "quota exceeded")
      (fun _ => LoadResult.decodeError) "some document").1 "quota exceeded" rfl,
   (claim_C1_two_tier_fallback (fun _ => GenOutcome.reply "this is not json")
      (fun _ => LoadResult.decodeError) "some document").2.1 "this is not json" rfl rfl⟩

/-- Claim C2 counterexample: when the GEMINI_API_KEY environment value is
empty, `analyze_document_with_gemini` does not return a record: it raises
an HTTP 500 at its very first step (`main.py` lines 112-114), for any
input text — here a concrete one.  This contradicts the unconditional
"never fails, never raises". -/
theorem claim_C2_counterexample :
    analyze_document_with_gemini false (fun _ => GenOutcome.raise "net down")
        (fun _ => LoadResult.decodeError) "a lease agreement"
      = .error ⟨500, geminiKeyMissingDetail⟩ := rfl

/-- Claim C2 amended: with the API key configured, the analyzer is total:
for every input text, every outcome of the external call and every
behaviour of the JSON decoder it returns some populated record and never
raises. -/
theorem claim_C2_analyzer_total (gen : String → GenOutcome)
    (loads : String → LoadResult) (text : String) :
    ∃ analysis, analyze_document_with_gemini true gen loads text = .ok analysis := by
  unfold analyze_document_with_gemini
  cases hg : gen (buildAnalyzePrompt text) with
  | raise msg => exact ⟨infraFallbackAnalysis, by simp [hg]⟩
  | reply raw =>
    cases hl : loads (cleanResponse raw) with
    | decodeError => exact ⟨parseFallbackAnalysis, by simp [hg, hl]⟩
    | illTyped msg => exact ⟨infraFallbackAnalysis, by simp [hg, hl]⟩
    | ok pd =>
      exact ⟨{ summary := pd.summary.getD "Document analysis completed."
               key_clauses := pd.key_clauses.getD []
               obligations := pd.obligations.getD []
               risks := pd.risks.getD []
               unusual_terms := pd.unusual_terms.getD [] }, by simp [hg, hl]⟩

/-- Claim C8 counterexample: the claim reads the two prefix removals as
exclusive alternatives ("a leading ```json prefix, otherwise a leading
``` prefix"), but the source applies the two tests sequentially, so a
reply starting with "```json```" loses both prefixes.  On that input the
code and the claim wording disagree. -/
theorem claim_C8_counterexample :
    cleanResponse "```json```X" = "X"
    ∧ specCleanExclusive "```json```X" = "```X"
    ∧ cleanResponse "```json```X" ≠ specCleanExclusive "```json```X" := by decide

/-- Claim C8 amended: before JSON parsing the analyzer trims the reply,
removes a leading "```json" prefix, THEN a leading "```" prefix from
what remains, then a trailing "```" suffix, and trims the result
(`specCleanSequential`, stated by independent list surgery); a reply
whose trimmed form carries no leading or trailing fence is parsed
unchanged. -/
theorem claim_C8_fence_stripping (raw : String) :
    cleanResponse raw = specCleanSequential raw
    ∧ (pyStartsWith (pyStrip raw) "```" = false →
        pyEndsWith (pyStrip raw) "```" = false →
        cleanResponse raw = pyStrip raw) := by
  constructor
  · simp only [cleanResponse, specCleanSequential]
    rw [fence_step1_eq (pyStrip raw), fence_step2_eq, fence_step3_eq]
  · intro h1 h2
    have h0 := pyStartsWith_fence_of_json _ h1
    simp only [cleanResponse, h0, h1, h2, Bool.false_eq_true, if_false]
    exact pyStrip_idem raw

/-- Claim C8 witness: a reply carrying no code fence is parsed unchanged
up to trimming, at a concrete input. -/
theorem claim_C8_witness :
    cleanResponse " \x7b\"summary\": \"ok\"\x7d " = pyStrip " \x7b\"summary\": \"ok\"\x7d "
    ∧ cleanResponse " \x7b\"summary\": \"ok\"\x7d " = "\x7b\"summary\": \"ok\"\x7d" := by
  have h := (claim_C8_fence_stripping " \x7b\"summary\": \"ok\"\x7d ").2 (by decide) (by decide)
  exact ⟨h, h.trans (by decide)⟩

/-- Claim C10: a chat request whose document_id is absent and whose
document_text is present but empty is treated as if no document was
supplied: the handler returns the HTTP 200 prompt-to-upload reply, for
every behaviour of the external generation capability (which is
therefore never consulted). -/
theorem claim_C10_empty_document_text (gen : String → GenOutcome)
    (nowIso : String) (store : DocumentStore) (message : String) :
    chat_with_document true gen nowIso store ⟨message, none, some ""⟩
      = .ok ⟨noDocumentReply, nowIso⟩ := rfl

/-- Claim C4: extraction fails exactly when the byte stream is not a
valid PDF or when the trimmed concatenation of per-page texts has zero
length; otherwise it returns that trimmed concatenation — each page text
followed by a newline separator, in page order, raising pages skipped —
and every failure is a 400. -/
theorem claim_C4_extraction (msg : String) (ps : List (Except String String)) :
    raises400 (extract_text_from_pdf (.invalid msg)) = true
    ∧ ((pyStrip (specJoinPages ps)).length = 0 →
        raises400 (extract_text_from_pdf (.pages ps)) = true)
    ∧ ((pyStrip (specJoinPages ps)).length ≠ 0 →
        extract_text_from_pdf (.pages ps) = .ok (pyStrip (specJoinPages ps))) := by
  refine ⟨rfl, ?_, ?_⟩
  · intro h
    simp [extract_text_from_pdf, concatPages_eq_spec, raises400, h]
  · intro h
    simp [extract_text_from_pdf, concatPages_eq_spec, h]

/-- Claim C4 witness: an invalid byte stream fails with a 400, and a
document with one successful page and one raising page yields the first
page text, at concrete inputs. -/
theorem claim_C4_witness :
    raises400 (extract_text_from_pdf (PdfParse.invalid "broken header")) = true
    ∧ extract_text_from_pdf samplePdf = .ok sampleText := by
  have h := claim_C4_extraction "broken header"
    [Except.ok sampleText, Except.error "page decode failure"]
  refine ⟨h.1, ?_⟩
  exact (h.2.2 (by decide)).trans (by decide)

/-- Claim C7 counterexample: a chat request carrying a document_id that
is not a key of the store — here the store is empty, so it has no keys at
all — is answered with the fixed storage-unavailable reply, which is not
the could-not-find reply the claim requires for every such request. -/
theorem claim_C7_counterexample :
    storeLookup [] "doc_20240101_000000_1" = none
    ∧ chat_with_document true (fun _ => GenOutcome.raise "e") "2024-01-01T00:00:00" []
        ⟨"What does clause 3 mean?", some "doc_20240101_000000_1", none⟩
      = .ok ⟨storeUnavailableReply, "2024-01-01T00:00:00"⟩
    ∧ storeUnavailableReply ≠ docNotFoundReply :=
  ⟨rfl, rfl, by decide⟩

/-- Claim C7 amended: a chat request carrying a truthy document_id that
is not a key of a NON-EMPTY store is answered HTTP 200 with the fixed
could-not-find reply; when the store is empty the handler instead
answers HTTP 200 with the storage-unavailable reply, before ever
consulting the keys. -/
theorem claim_C7_unknown_id (gen : String → GenOutcome) (nowIso : String)
    (store : DocumentStore) (req : ChatMessage)
    (hid : pyTruthy req.document_id = true) :
    (storeIsEmpty store = false →
      storeLookup store (pyStr req.document_id) = none →
      chat_with_document true gen nowIso store req = .ok ⟨docNotFoundReply, nowIso⟩)
    ∧ (storeIsEmpty store = true →
      chat_with_document true gen nowIso store req = .ok ⟨storeUnavailableReply, nowIso⟩) := by
  constructor
  · intro hne hnf
    simp [chat_with_document, hid, hne, hnf]
  · intro he
    simp [chat_with_document, hid, he]

/-- Claim C7 witness: an unknown id against a one-document store gets the
could-not-find reply, and the same request against an empty store gets
the storage-unavailable reply. -/
theorem claim_C7_witness :
    chat_with_document true (fun _ => GenOutcome.raise "e") "ts"
        [("doc_a", sampleDoc)] ⟨"hi", some "doc_b", none⟩
      = .ok ⟨docNotFoundReply, "ts"⟩
    ∧ chat_with_document true (fun _ => GenOutcome.raise "e") "ts" []
        ⟨"hi", some "doc_b", none⟩
      = .ok ⟨storeUnavailableReply, "ts"⟩ :=
  ⟨(claim_C7_unknown_id (fun _ => GenOutcome.raise "e") "ts" [("doc_a", sampleDoc)]
      ⟨"hi", some "doc_b", none⟩ (by decide)).1 rfl (by decide),
   (claim_C7_unknown_id (fun _ => GenOutcome.raise "e") "ts" []
      ⟨"hi", some "doc_b", none⟩ (by decide)).2 rfl⟩

/-- Claim C9: both the analysis prompt and the chat prompt embed the
document text only through the fixed 25000-character truncation: the
embedded text always equals the first 25000 characters of the input
(hence has length at most 25000) and equals the input unchanged whenever
the input has at most 25000 characters. -/
theorem claim_C9_truncation (text message : String) :
    buildAnalyzePrompt text = analyzePromptPre ++ limitText text ++ analyzePromptSuf
    ∧ buildChatPrompt text message
      = "You are analyzing a legal document. Answer the following question about it:\n\nDocument: "
        ++ limitText text
        ++ "\n\nQuestion: " ++ message
        ++ "\n\nPlease provide a clear and concise answer based on the document content."
    ∧ limitText text = pyTake text 25000
    ∧ (limitText text).length = min 25000 text.length
    ∧ (text.length ≤ 25000 → limitText text = text) := by
  refine ⟨rfl, rfl, limitText_eq_take text, ?_, ?_⟩
  · rw [limitText_eq_take]
    cases text with
    | mk l =>
      simp [pyTake, String.length]
  · intro h
    unfold limitText
    rw [if_neg (by omega)]

/-- Claim C9 witness: a short text is embedded unchanged, at a concrete input. -/
theorem claim_C9_witness :
    limitText sampleText = sampleText
    ∧ buildAnalyzePrompt sampleText = analyzePromptPre ++ sampleText ++ analyzePromptSuf := by
  have h := claim_C9_truncation sampleText "a question"
  have h5 := h.2.2.2.2 (by decide)
  exact ⟨h5, by rw [h.1, h5]⟩

/-- Claim C5: the upload handler rejects with a 400 — leaving the store
unchanged and for every behaviour of the analyzer oracles, hence before
any analysis runs — every request whose filename is falsy or does not
end in ".pdf" case-insensitively, whose payload is empty or exceeds
10485760 bytes, or whose successfully extracted text trims to fewer than
50 characters; and a payload of exactly 10485760 bytes passes the size
check: such a request proceeds to extraction. -/
theorem claim_C5_upload_validation (apiKeyConfigured : Bool)
    (gen : String → GenOutcome) (loads : String → LoadResult)
    (filename : Option String) (contentSize : Nat) (pdf : PdfParse)
    (textHash : String → Nat) (nowStamp nowIso : String)
    (unexpected : Option String) (store : DocumentStore) :
    ((pyTruthy filename = false
        ∨ pyEndsWith (pyLower (pyStr filename)) ".pdf" = false
        ∨ contentSize = 0
        ∨ contentSize > 10485760
        ∨ (∃ t, extract_text_from_pdf pdf = .ok t ∧ (pyStrip t).length < 50)) →
      raises400 (upload_document apiKeyConfigured gen loads filename contentSize pdf
          textHash nowStamp nowIso unexpected store).1 = true
        ∧ (upload_document apiKeyConfigured gen loads filename contentSize pdf
            textHash nowStamp nowIso unexpected store).2 = store)
    ∧ (∀ m, pdf = .invalid m → pyTruthy filename = true →
        pyEndsWith (pyLower (pyStr filename)) ".pdf" = true →
        upload_document apiKeyConfigured gen loads filename 10485760 pdf
            textHash nowStamp nowIso unexpected store
          = (.error ⟨400, "Error extracting text from PDF: " ++ m⟩, store)) := by
  constructor
  · intro h
    unfold upload_document
    by_cases h1 : pyTruthy filename = true
    case neg =>
      simp only [Bool.not_eq_true] at h1
      simp [h1, raises400]
    by_cases h2 : pyEndsWith (pyLower (pyStr filename)) ".pdf" = true
    case neg =>
      simp only [Bool.not_eq_true] at h2
      simp [h1, h2, raises400]
    by_cases h3 : contentSize = 0
    case pos => simp [h1, h2, h3, raises400]
    by_cases h4 : contentSize > 10 * 1024 * 1024
    case pos => simp [h1, h2, h3, h4, raises400]
    rcases h with h | h | h | h | ⟨t, ht, hlen⟩
    · rw [h1] at h
      cases h
    · rw [h2] at h
      cases h
    · exact absurd h h3
    · exact absurd (show contentSize > 10 * 1024 * 1024 by omega) h4
    · simp [h1, h2, h3, h4, ht, hlen, raises400]
  · intro m hm hfn hpdfname
    subst hm
    unfold upload_document
    simp [hfn, hpdfname, extract_text_from_pdf]

/-- Claim C5 witness: a missing filename is rejected with a 400, and a
payload of exactly 10485760 bytes reaches extraction, at concrete inputs. -/
theorem claim_C5_witness :
    raises400 (upload_document true (fun _ => GenOutcome.raise "") (fun _ => LoadResult.decodeError)
        none 5 samplePdf (fun _ => 0) "s" "i" none []).1 = true
    ∧ upload_document true (fun _ => GenOutcome.raise "") (fun _ => LoadResult.decodeError)
        (some "contract.pdf") 10485760 (PdfParse.invalid "broken") (fun _ => 0) "s" "i" none []
      = (.error ⟨400, "Error extracting text from PDF: broken"⟩, []) :=
  ⟨((claim_C5_upload_validation true (fun _ => GenOutcome.raise "") (fun _ => LoadResult.decodeError)
      none 5 samplePdf (fun _ => 0) "s" "i" none []).1 (Or.inl rfl)).1,
   (claim_C5_upload_validation true (fun _ => GenOutcome.raise "") (fun _ => LoadResult.decodeError)
      (some "contract.pdf") 10485760 (PdfParse.invalid "broken") (fun _ => 0) "s" "i" none []).2
     "broken" rfl (by decide) (by decide)⟩

/-- Claim C6: for every document successfully stored by the upload
handler, reading it back through the document-info handler under the
returned id yields the uploaded filename, a text_length equal to the
length of the stored text, and a preview equal to the first 200
characters of the stored text followed by "..." when the text exceeds
200 characters and to the full stored text otherwise. -/
theorem claim_C6_roundtrip (apiKeyConfigured : Bool)
    (gen : String → GenOutcome) (loads : String → LoadResult)
    (filename : Option String) (contentSize : Nat) (pdf : PdfParse)
    (textHash : String → Nat) (nowStamp nowIso : String)
    (unexpected : Option String) (store : DocumentStore)
    (dtext : String) (res : UploadResult) (store2 : DocumentStore)
    (hx : extract_text_from_pdf pdf = .ok dtext)
    (h : upload_document apiKeyConfigured gen loads filename contentSize pdf
        textHash nowStamp nowIso unexpected store = (.ok res, store2)) :
    res.filename = pyStr filename
    ∧ res.text_length = dtext.length
    ∧ get_document_info store2 res.document_id
      = .ok { document_id := res.document_id
              filename := pyStr filename
              upload_time := nowIso
              text_length := dtext.length
              text_preview :=
                if dtext.length > 200 then pyTake dtext 200 ++ "..." else dtext } := by
  unfold upload_document at h
  split at h
  · simp at h
  split at h
  · simp at h
  split at h
  · simp at h
  split at h
  · simp at h
  split at h
  case h_1 e heq => simp at h
  case h_2 document_text heq =>
    rw [hx] at heq
    injection heq with hdt
    subst hdt
    split at h
    · simp at h
    split at h
    case h_1 msg hu => simp at h
    case h_2 hu =>
      split at h
      case h_1 e ha => simp at h
      case h_2 analysis ha =>
        simp only [Prod.mk.injEq, Except.ok.injEq] at h
        obtain ⟨hres, hstore⟩ := h
        subst hres
        subst hstore
        refine ⟨rfl, rfl, ?_⟩
        simp [get_document_info, storeLookup_insert_self]

/-- Claim C6 witness: a concrete successful upload is read back with the
same filename, the stored text length and the full-text preview. -/
theorem claim_C6_witness :
    get_document_info
        (upload_document true (fun _ => GenOutcome.raise "quota") (fun _ => LoadResult.decodeError)
          (some "contract.pdf") 1000 samplePdf (fun _ => 7) "20240101_000000"
          "2024-01-01T00:00:00" none []).2
        "doc_20240101_000000_7"
      = .ok { document_id := "doc_20240101_000000_7"
              filename := "contract.pdf"
              upload_time := "2024-01-01T00:00:00"
              text_length := sampleText.length
              text_preview := sampleText } := by
  have h := claim_C6_roundtrip true (fun _ => GenOutcome.raise "quota")
    (fun _ => LoadResult.decodeError) (some "contract.pdf") 1000 samplePdf (fun _ => 7)
    "20240101_000000" "2024-01-01T00:00:00" none [] sampleText
    { document_id := "doc_20240101_000000_7"
      filename := "contract.pdf"
      analysis := infraFallbackAnalysis
      text_length := sampleText.length }
    [("doc_20240101_000000_7",
      { text := sampleText
        filename := "contract.pdf"
        upload_time := "2024-01-01T00:00:00"
        file_size := 1000 })]
    (by decide) (by decide)
  exact h.2.2.trans (by decide)

/-- Claim C3 counterexample: an upload that stores the document and then
fails because the analyzer raises an HTTP 500 (unconfigured API key) is
re-raised by the `except HTTPException` arm WITHOUT the rollback, so the
error response coexists with a store entry under the id generated during
that request. -/
theorem claim_C3_counterexample :
    (upload_document false (fun _ => GenOutcome.raise "") (fun _ => LoadResult.decodeError)
        (some "contract.pdf") 1000 samplePdf (fun _ => 7) "20240101_000000"
        "2024-01-01T00:00:00" none []).1
      = .error ⟨500, geminiKeyMissingDetail⟩
    ∧ storeLookup (upload_document false (fun _ => GenOutcome.raise "")
        (fun _ => LoadResult.decodeError) (some "contract.pdf") 1000 samplePdf (fun _ => 7)
        "20240101_000000" "2024-01-01T00:00:00" none []).2 "doc_20240101_000000_7"
      = some { text := sampleText
               filename := "contract.pdf"
               upload_time := "2024-01-01T00:00:00"
               file_size := 1000 } :=
  ⟨by decide, by decide⟩

/-- Claim C3 amended: when the failure after storing is a
non-HTTPException exception — the only case the generic `except
Exception` handler receives — the handler deletes the just-created entry
before reporting the 500, so the store no longer maps the generated id;
an HTTPException raised after storing is re-raised without this rollback. -/
theorem claim_C3_rollback (apiKeyConfigured : Bool)
    (gen : String → GenOutcome) (loads : String → LoadResult)
    (filename : Option String) (contentSize : Nat) (pdf : PdfParse)
    (textHash : String → Nat) (nowStamp nowIso msg : String)
    (store : DocumentStore) (dtext : String)
    (hfn : pyTruthy filename = true)
    (hpdfname : pyEndsWith (pyLower (pyStr filename)) ".pdf" = true)
    (hsz0 : contentSize ≠ 0)
    (hszM : ¬contentSize > 10 * 1024 * 1024)
    (hx : extract_text_from_pdf pdf = .ok dtext)
    (hlen : ¬(pyStrip dtext).length < 50) :
    upload_document apiKeyConfigured gen loads filename contentSize pdf
        textHash nowStamp nowIso (some msg) store
      = (.error ⟨500, unexpectedErrorDetail msg⟩,
         storeErase
           (storeInsert store (makeDocId textHash nowStamp dtext)
             { text := dtext
               filename := pyStr filename
               upload_time := nowIso
               file_size := contentSize })
           (makeDocId textHash nowStamp dtext))
    ∧ storeLookup (upload_document apiKeyConfigured gen loads filename contentSize pdf
        textHash nowStamp nowIso (some msg) store).2 (makeDocId textHash nowStamp dtext)
      = none := by
  have hmain : upload_document apiKeyConfigured gen loads filename contentSize pdf
      textHash nowStamp nowIso (some msg) store
      = (.error ⟨500, unexpectedErrorDetail msg⟩,
         storeErase
           (storeInsert store (makeDocId textHash nowStamp dtext)
             { text := dtext
               filename := pyStr filename
               upload_time := nowIso
               file_size := contentSize })
           (makeDocId textHash nowStamp dtext)) := by
    unfold upload_document
    simp [hfn, hpdfname, hsz0, hszM, hx, hlen]
  refine ⟨hmain, ?_⟩
  rw [hmain]
  exact storeLookup_erase_self _ _

/-- Claim C3 witness: a concrete upload failing through the generic
handler reports a 500 and leaves no entry under the generated id. -/
theorem claim_C3_witness :
    (upload_document true (fun _ => GenOutcome.raise "") (fun _ => LoadResult.decodeError)
        (some "contract.pdf") 1000 samplePdf (fun _ => 7) "s" "i" (some "disk full") []).1
      = .error ⟨500, unexpectedErrorDetail "disk full"⟩
    ∧ storeLookup (upload_document true (fun _ => GenOutcome.raise "")
        (fun _ => LoadResult.decodeError) (some "contract.pdf") 1000 samplePdf (fun _ => 7)
        "s" "i" (some "disk full") []).2 "doc_s_7"
      = none := by
  have h := claim_C3_rollback true (fun _ => GenOutcome.raise "") (fun _ => LoadResult.decodeError)
    (some "contract.pdf") 1000 samplePdf (fun _ => 7) "s" "i" "disk full" [] sampleText
    (by decide) (by decide) (by decide) (by decide) (by decide) (by decide)
  have e : makeDocId (fun _ => 7) "s" sampleText = "doc_s_7" := by decide
  constructor
  · rw [h.1]
  · rw [← e]
    exact h.2
